import Mathlib

/-!
Shallow embedding in Lean 4 of the Y4_Lab5 CRUD API
(src/app/main.py, src/app/models.py, src/app/schemas.py).

Rows mirror the SQLAlchemy models, the database session is an explicit
`DB` state, and each FastAPI handler becomes a function from the state
and the validated payload to the new state paired with an
`Except HttpError` result.  Generated primary keys are modelled by
per-table counters starting at 1 (SQLite autoincrement).  Request-body
validation (pydantic) is performed before the handler body runs, as in
FastAPI, so each handler function first checks the payload's schema.
-/

namespace Lab5

/-- HTTP error carried by a raised HTTPException (or by FastAPI itself:
422 for schema validation, 500 for an unhandled exception). -/
structure HttpError where
  status : Nat
  detail : String
deriving DecidableEq, Repr

/-- Row of the users table (models.py, UserDB): id primary key, name,
email (unique), age, student_id (unique); all columns NOT NULL. -/
structure UserRow where
  id : Nat
  name : String
  email : String
  age : Int
  student_id : String
deriving DecidableEq, Repr

/-- Row of the projects table (models.py, ProjectDB): id primary key,
name NOT NULL, description nullable, owner_id a foreign key to users.id
with ondelete CASCADE. -/
structure ProjectRow where
  id : Nat
  name : String
  description : Option String
  owner_id : Nat
deriving DecidableEq, Repr

/-- Row of the courses table (models.py, CourseDB): id primary key,
code (unique), name, credits. -/
structure CourseRow where
  id : Nat
  code : String
  name : String
  credits : Int
deriving DecidableEq, Repr

/-- The relational store: one list of rows per table plus the next
generated primary key of each table.  Foreign-key enforcement follows
models.py (ForeignKey with ondelete CASCADE) and spec.md section 3,
the engine configuration (app/database.py) not being part of src. -/
structure DB where
  users : List UserRow
  projects : List ProjectRow
  courses : List CourseRow
  nextUserId : Nat
  nextProjectId : Nat
  nextCourseId : Nat
deriving DecidableEq, Repr

/-- The store at startup: empty tables, generated ids starting at 1. -/
def emptyDB : DB := ⟨[], [], [], 1, 1, 1⟩

/-! ### Validation layer (schemas.py) -/

/-- schemas.py StudentID, the pattern `^S\d{7}$` (an anchored match:
the letter S, then exactly seven digits, then end of string). -/
def matchStudentID (s : String) : Bool :=
  match s.data with
  | c :: rest => c == 'S' && rest.length == 7 && rest.all Char.isDigit
  | [] => false

/-- schemas.py NameStr: a string of 2 to 50 characters. -/
def validName (s : String) : Bool :=
  2 ≤ s.length && s.length ≤ 50

/-- Abstraction of pydantic EmailStr, whose validator lives in the
external email-validator package (outside this repository): a nonempty
local part, a single at sign, and a nonempty domain with a dot. -/
def validEmail (s : String) : Bool :=
  let lp := s.data.takeWhile (fun c => c != '@')
  match s.data.dropWhile (fun c => c != '@') with
  | c :: dom =>
    c == '@' && !lp.isEmpty && !dom.isEmpty
      && dom.all (fun d => d != '@') && dom.any (fun d => d == '.')
  | [] => false

/-- schemas.py CodeStr: 1 to 32 characters. -/
def validCode (s : String) : Bool :=
  1 ≤ s.length && s.length ≤ 32

/-- schemas.py CourseNameStr and ProjectNameStr: 1 to 255 characters. -/
def validLongName (s : String) : Bool :=
  1 ≤ s.length && s.length ≤ 255

/-- schemas.py DescStr: at most 2000 characters. -/
def validDesc (s : String) : Bool :=
  s.length ≤ 2000

/-- schemas.py UserCreate's age constraint: Field(gt=18), a strict
lower bound with no upper bound. -/
def userCreateAgeOK (a : Int) : Bool :=
  a > 18

/-- schemas.py AgeInt (used by UserUpdate): Ge(18) and Le(150), a
non-strict lower bound. -/
def userUpdateAgeOK (a : Int) : Bool :=
  18 ≤ a && a ≤ 150

/-- schemas.py CreditsInt: Ge(1) and Le(120). -/
def creditsOK (c : Int) : Bool :=
  1 ≤ c && c ≤ 120

/-- schemas.py UserCreate: student_id, name, email, age, all required. -/
structure UserCreate where
  student_id : String
  name : String
  email : String
  age : Int
deriving DecidableEq, Repr

/-- Pydantic validation of a UserCreate body. -/
def validateUserCreate (p : UserCreate) : Bool :=
  matchStudentID p.student_id && validName p.name
    && validEmail p.email && userCreateAgeOK p.age

/-- schemas.py UserUpdate: every field optional; `none` models a field
absent from the request (pydantic exclude_unset).  An explicitly null
field, which pydantic would accept and the NOT NULL columns would then
reject at commit, is outside the modelled inputs since no route
behaviour under scrutiny depends on it. -/
structure UserUpdate where
  student_id : Option String
  name : Option String
  email : Option String
  age : Option Int
deriving DecidableEq, Repr

/-- Pydantic validation of a UserUpdate body: each supplied field must
satisfy its constraint; note the age bound here is AgeInt (Ge 18). -/
def validateUserUpdate (p : UserUpdate) : Bool :=
  (match p.student_id with | some s => matchStudentID s | none => true)
  && (match p.name with | some s => validName s | none => true)
  && (match p.email with | some s => validEmail s | none => true)
  && (match p.age with | some a => userUpdateAgeOK a | none => true)

/-- schemas.py CourseCreate: code, name, credits, all required. -/
structure CourseCreate where
  code : String
  name : String
  credits : Int
deriving DecidableEq, Repr

/-- Pydantic validation of a CourseCreate body. -/
def validateCourseCreate (p : CourseCreate) : Bool :=
  validCode p.code && validLongName p.name && creditsOK p.credits

/-- schemas.py ProjectCreate (flat route, owner_id in the body). -/
structure ProjectCreate where
  name : String
  description : Option String
  owner_id : Nat
deriving DecidableEq, Repr

/-- Pydantic validation of a ProjectCreate body. -/
def validateProjectCreate (p : ProjectCreate) : Bool :=
  validLongName p.name
    && (match p.description with | some d => validDesc d | none => true)

/-- schemas.py ProjectCreateForUser (nested route): the payload omits
owner_id, which is implied by the route. -/
structure ProjectCreateForUser where
  name : String
  description : Option String
deriving DecidableEq, Repr

/-- Pydantic validation of a ProjectCreateForUser body. -/
def validateProjectCreateForUser (p : ProjectCreateForUser) : Bool :=
  validLongName p.name
    && (match p.description with | some d => validDesc d | none => true)

/-- schemas.py ProjectUpdate: both fields optional.  The outer Option
marks whether the field appeared in the request (pydantic
exclude_unset); the inner Option is the field's value, which may be an
explicit null. -/
structure ProjectUpdate where
  name : Option (Option String)
  description : Option (Option String)
deriving DecidableEq, Repr

/-- Pydantic validation of a ProjectUpdate body: a supplied non-null
field must satisfy its constraint; explicit null passes (the fields
are Optional). -/
def validateProjectUpdate (p : ProjectUpdate) : Bool :=
  (match p.name with | some (some s) => validLongName s | _ => true)
  && (match p.description with | some (some d) => validDesc d | _ => true)

/-! ### Request handlers (main.py) -/

/-- main.py commit_or_rollback (lines 37-42): tries to commit; on an
integrity violation it rolls back and then merely CONSTRUCTS
HTTPException(409, error_msg) without raising it, so no error escapes
and the caller continues.  The function returns the state after the
commit attempt: the committed state on success, the pre-commit state
after a rollback. -/
def commit_or_rollback (committed rolledBack : DB) (violation : Bool) : DB :=
  if violation then rolledBack else committed

/-- main.py create_course (POST /api/courses): add the row and call
commit_or_rollback.  A duplicate code violates the unique constraint;
the swallowed conflict means execution reaches db.refresh on the
rolled-back (expunged) instance, which raises and surfaces as a 500,
not as the constructed 409. -/
def create_course (db : DB) (p : CourseCreate) : DB × Except HttpError CourseRow :=
  if !validateCourseCreate p then
    (db, .error ⟨422, "validation error"⟩)
  else
    let row : CourseRow := ⟨db.nextCourseId, p.code, p.name, p.credits⟩
    let violation := db.courses.any (fun c => c.code == p.code)
    let db2 := commit_or_rollback
      { db with courses := db.courses ++ [row], nextCourseId := db.nextCourseId + 1 }
      db violation
    if violation then
      (db2, .error ⟨500, "Internal Server Error"⟩)
    else
      (db2, .ok row)

/-- main.py list_courses (GET /api/courses): select CourseDB ordered by
id, then apply offset and limit (modelled for the nonnegative values
the route is exercised with).  The Python signature's defaults are
limit 10 and offset 0. -/
def list_courses (db : DB) (limit offset : Nat) : List CourseRow :=
  ((db.courses.insertionSort (fun a b => a.id ≤ b.id)).drop offset).take limit

/-- main.py list_courses invoked without query parameters: the defaults
of the signature, limit = 10 and offset = 0. -/
def list_courses_default (db : DB) : List CourseRow :=
  list_courses db 10 0

/-- main.py create_project (POST /api/projects, owner_id in body):
404 when the owner does not exist; otherwise insert and call
commit_or_rollback.  The projects table has no unique constraint
(models.py declares none despite its comment), so the commit after the
owner check cannot hit an integrity violation. -/
def create_project (db : DB) (p : ProjectCreate) : DB × Except HttpError ProjectRow :=
  if !validateProjectCreate p then
    (db, .error ⟨422, "validation error"⟩)
  else if !db.users.any (fun u => u.id == p.owner_id) then
    (db, .error ⟨404, "User not found"⟩)
  else
    let row : ProjectRow := ⟨db.nextProjectId, p.name, p.description, p.owner_id⟩
    ({ db with projects := db.projects ++ [row],
               nextProjectId := db.nextProjectId + 1 }, .ok row)

/-- main.py update_project (PUT /api/projects/update/{project_id}):
404 when the project is absent; otherwise every field of the mandatory
ProjectCreate payload (name, description, owner_id) overwrites the row
via model_dump().  Moving the row to a nonexistent owner violates the
foreign key at commit, which this route does catch: rollback and 400. -/
def update_project (db : DB) (pid : Nat) (p : ProjectCreate) :
    DB × Except HttpError ProjectRow :=
  if !validateProjectCreate p then
    (db, .error ⟨422, "validation error"⟩)
  else
    match db.projects.find? (fun r => r.id == pid) with
    | none => (db, .error ⟨404, "Project not found"⟩)
    | some q =>
      let q2 : ProjectRow :=
        { q with name := p.name, description := p.description, owner_id := p.owner_id }
      if db.users.any (fun u => u.id == p.owner_id) then
        ({ db with projects := db.projects.map (fun r => if r.id == pid then q2 else r) },
          .ok q2)
      else
        (db, .error ⟨400, "Project already exists"⟩)

/-- main.py patch_project (PATCH /api/projects/patch/{project_id}):
404 when the project is absent; otherwise only the fields present in
the payload (model_dump with exclude_unset) overwrite the row.  An
explicit null name violates the NOT NULL column at commit: rollback
and 400. -/
def patch_project (db : DB) (pid : Nat) (p : ProjectUpdate) :
    DB × Except HttpError ProjectRow :=
  if !validateProjectUpdate p then
    (db, .error ⟨422, "validation error"⟩)
  else
    match db.projects.find? (fun r => r.id == pid) with
    | none => (db, .error ⟨404, "Project not found"⟩)
    | some q =>
      if p.name == some none then
        (db, .error ⟨400, "Project already exists"⟩)
      else
        let q2 : ProjectRow :=
          { q with
            name := match p.name with | some (some n) => n | _ => q.name,
            description := match p.description with | some d => d | none => q.description }
        ({ db with projects := db.projects.map (fun r => if r.id == pid then q2 else r) },
          .ok q2)

/-- main.py get_user_projects (GET /api/users/{users_id}/projects):
select the projects whose owner_id equals the given id.  No lookup of
the user itself is performed and the handler has no error outcome. -/
def get_user_projects (db : DB) (users_id : Nat) : List ProjectRow :=
  db.projects.filter (fun p => p.owner_id == users_id)

/-- main.py create_user_project handler body (POST
/api/users/{user_id}/projects): 404 when the user bound to users_id
does not exist; otherwise insert a project owned by users_id and call
commit_or_rollback (no unique constraint on projects, so the commit
succeeds). -/
def create_user_project (db : DB) (users_id : Nat) (p : ProjectCreateForUser) :
    DB × Except HttpError ProjectRow :=
  if !validateProjectCreateForUser p then
    (db, .error ⟨422, "validation error"⟩)
  else if !db.users.any (fun u => u.id == users_id) then
    (db, .error ⟨404, "User not found"⟩)
  else
    let row : ProjectRow := ⟨db.nextProjectId, p.name, p.description, users_id⟩
    ({ db with projects := db.projects ++ [row],
               nextProjectId := db.nextProjectId + 1 }, .ok row)

/-- Path-parameter names declared by the route template of the nested
project-create route: the template is /api/users/{user_id}/projects. -/
def nestedRoutePathParams : List String := ["user_id"]

/-- Name of the user-id parameter declared by the create_user_project
handler signature in main.py line 148: users_id. -/
def nestedRouteHandlerParam : String := "users_id"

/-- FastAPI parameter binding for the nested project-create route: a
scalar handler parameter whose name matches a path-template parameter
binds from the path; otherwise it becomes a required query parameter
and the path value is never read, with a 422 when the query string
lacks it. -/
def bind_users_id (path_user_id : Nat) (query : List (String × Nat)) :
    Except HttpError Nat :=
  if nestedRoutePathParams.contains nestedRouteHandlerParam then
    .ok path_user_id
  else
    match query.find? (fun kv => kv.1 == nestedRouteHandlerParam) with
    | some kv => .ok kv.2
    | none => .error ⟨422, "field required: users_id"⟩

/-- The nested project-create endpoint as dispatched: FastAPI binds the
handler's users_id parameter, then runs create_user_project. -/
def post_user_project (db : DB) (path_user_id : Nat)
    (query : List (String × Nat)) (p : ProjectCreateForUser) :
    DB × Except HttpError ProjectRow :=
  match bind_users_id path_user_id query with
  | .error e => (db, .error e)
  | .ok uid => create_user_project db uid p

/-- main.py add_user (POST /api/users): insert; an IntegrityError from
the unique email or student_id column rolls back and raises 400 "User
already exists" (this route does raise). -/
def add_user (db : DB) (p : UserCreate) : DB × Except HttpError UserRow :=
  if !validateUserCreate p then
    (db, .error ⟨422, "validation error"⟩)
  else if db.users.any (fun u => u.email == p.email || u.student_id == p.student_id) then
    (db, .error ⟨400, "User already exists"⟩)
  else
    let row : UserRow := ⟨db.nextUserId, p.name, p.email, p.age, p.student_id⟩
    ({ db with users := db.users ++ [row], nextUserId := db.nextUserId + 1 }, .ok row)

/-- Overwrite the fields of a user row that are present in a UserUpdate
payload (main.py patch_user's setattr loop over model_dump with
exclude_unset). -/
def applyUserUpdate (u : UserRow) (p : UserUpdate) : UserRow :=
  { u with
    student_id := p.student_id.getD u.student_id,
    name := p.name.getD u.name,
    email := p.email.getD u.email,
    age := p.age.getD u.age }

/-- main.py patch_user (PATCH /api/users/patch/{users_id}): 404 when
the user is absent; otherwise only the supplied fields overwrite the
row; a resulting email or student_id equal to another user's violates
the unique constraint at commit: rollback and 400. -/
def patch_user (db : DB) (uid : Nat) (p : UserUpdate) :
    DB × Except HttpError UserRow :=
  if !validateUserUpdate p then
    (db, .error ⟨422, "validation error"⟩)
  else
    match db.users.find? (fun x => x.id == uid) with
    | none => (db, .error ⟨404, "User not found"⟩)
    | some u =>
      let u2 := applyUserUpdate u p
      if db.users.any (fun x => x.id != uid
          && (x.email == u2.email || x.student_id == u2.student_id)) then
        (db, .error ⟨400, "Email or Student ID already exists"⟩)
      else
        ({ db with users := db.users.map (fun x => if x.id == uid then u2 else x) },
          .ok u2)

/-- main.py delete_user (DELETE /api/users/delete/{users_id}): 404 when
the user is absent; otherwise db.delete(user) removes the row, and the
relationship's cascade "all, delete-orphan" (models.py line 16, with
ondelete CASCADE on projects.owner_id) removes every project owned by
it; the route returns 204 with no body. -/
def delete_user (db : DB) (uid : Nat) : DB × Except HttpError Unit :=
  if !db.users.any (fun u => u.id == uid) then
    (db, .error ⟨404, "User not found"⟩)
  else
    ({ db with users := db.users.filter (fun u => u.id != uid),
               projects := db.projects.filter (fun p => p.owner_id != uid) },
      .ok ())

/-- The order-by clause of list_courses compares rows by id; totality
of that comparison, needed for insertion-sort correctness. -/
instance : IsTotal CourseRow (fun a b => a.id ≤ b.id) :=
  ⟨fun a b => Nat.le_total a.id b.id⟩

/-- Transitivity of the by-id comparison used by list_courses. -/
instance : IsTrans CourseRow (fun a b => a.id ≤ b.id) :=
  ⟨fun _ _ _ => Nat.le_trans⟩

/-! ### Shared concrete states for witnesses and counterexamples -/

/-- A store holding exactly one persisted user, with id 1. -/
def oneUserDB : DB :=
  ⟨[⟨1, "Alice", "alice@uni.ie", 21, "S1234567"⟩], [], [], 2, 1, 1⟩

/-- A store holding one user (id 1) who owns one project (id 1). -/
def projUserDB : DB :=
  ⟨[⟨1, "Alice", "alice@uni.ie", 21, "S1234567"⟩],
   [⟨1, "Thesis", some "final year project", 1⟩], [], 2, 2, 1⟩

/-! ### Claims -/

/-- Finding a row by a test after the update routes' in-place rewrite
of the matching rows: if the find succeeded before, the same find on
the mapped table returns the updated row. -/
theorem find_map_update {α : Type} (test : α → Bool) (l : List α) (q q2 : α)
    (hq2 : test q2 = true) (h : l.find? test = some q) :
    (l.map (fun r => if test r then q2 else r)).find? test = some q2 := by
  induction l with
  | nil => simp at h
  | cons a as ih =>
    cases ha : test a with
    | true =>
      simp only [List.map_cons, ha, if_true]
      exact List.find?_cons_of_pos _ hq2
    | false =>
      rw [List.find?_cons_of_neg _ (by simp [ha])] at h
      simp only [List.map_cons, ha, if_false]
      rw [List.find?_cons_of_neg _ (by simp [ha])]
      exact ih h

/-- C1: the claim says a create whose insert hits a unique-constraint
violation fails with a 409 Conflict naming the entity.  In the code,
commit_or_rollback only constructs HTTPException(409) without raising
it (main.py line 42), so the duplicate course create instead reaches
db.refresh on the rolled-back instance and fails as a 500; the success
half (row returned with generated id) does hold.  This theorem
evaluates both requests at a concrete input. -/
theorem duplicate_course_create_is_500_not_409 :
    (create_course emptyDB ⟨"CS101", "Databases", 5⟩).2
        = .ok ⟨1, "CS101", "Databases", 5⟩ ∧
    (create_course (create_course emptyDB ⟨"CS101", "Databases", 5⟩).1
        ⟨"CS101", "Databases", 5⟩).2
        = .error ⟨500, "Internal Server Error"⟩ ∧
    (create_course (create_course emptyDB ⟨"CS101", "Databases", 5⟩).1
        ⟨"CS101", "Databases", 5⟩).2
        ≠ .error ⟨409, "Course already exists"⟩ := by
  refine ⟨rfl, rfl, fun h => ?_⟩
  exact absurd (congrArg HttpError.status (Except.error.inj h)) (by decide)

/-- C2: creating a user whose email or student_id equals that of an
already-persisted user fails with the 400 conflict raised by add_user,
and the store is unchanged by the failed request. -/
theorem add_user_duplicate_conflict (db : DB) (p : UserCreate)
    (hv : validateUserCreate p = true)
    (hdup : ∃ u ∈ db.users, u.email = p.email ∨ u.student_id = p.student_id) :
    (add_user db p).1 = db ∧
    (add_user db p).2 = .error ⟨400, "User already exists"⟩ := by
  have hany : db.users.any
      (fun u => u.email == p.email || u.student_id == p.student_id) = true := by
    obtain ⟨u, hu, h⟩ := hdup
    refine List.any_eq_true.mpr ⟨u, hu, ?_⟩
    cases h with
    | inl h => simp [h]
    | inr h => simp [h]
  unfold add_user
  simp [hv, hany]

/-- C2 witness: a second user duplicating the persisted email is
rejected with 400 and the store keeps its single row. -/
theorem add_user_duplicate_conflict_witness :
    (add_user oneUserDB ⟨"S7654321", "Bob", "alice@uni.ie", 22⟩).1 = oneUserDB ∧
    (add_user oneUserDB ⟨"S7654321", "Bob", "alice@uni.ie", 22⟩).2
        = .error ⟨400, "User already exists"⟩ :=
  add_user_duplicate_conflict oneUserDB ⟨"S7654321", "Bob", "alice@uni.ie", 22⟩
    (by decide)
    ⟨⟨1, "Alice", "alice@uni.ie", 21, "S1234567"⟩, by decide, Or.inl rfl⟩

/-- C5: with the other fields valid, a user-create payload with age 18
is rejected by schema validation (Field gt=18) with a 422 before any
persistence (the store is unchanged), while age 19 passes the same
validation. -/
theorem user_create_age_boundary (db : DB) (sid nm em : String)
    (hs : matchStudentID sid = true) (hn : validName nm = true)
    (he : validEmail em = true) :
    (add_user db ⟨sid, nm, em, 18⟩).1 = db ∧
    (add_user db ⟨sid, nm, em, 18⟩).2 = .error ⟨422, "validation error"⟩ ∧
    validateUserCreate ⟨sid, nm, em, 19⟩ = true := by
  unfold add_user validateUserCreate userCreateAgeOK
  simp [hs, hn, he]

/-- C5 witness at a concrete payload: age 18 is rejected with 422
leaving the empty store empty, and age 19 validates. -/
theorem user_create_age_boundary_witness :
    (add_user emptyDB ⟨"S1234567", "Alice", "alice@uni.ie", 18⟩).1 = emptyDB ∧
    (add_user emptyDB ⟨"S1234567", "Alice", "alice@uni.ie", 18⟩).2
        = .error ⟨422, "validation error"⟩ ∧
    validateUserCreate ⟨"S1234567", "Alice", "alice@uni.ie", 19⟩ = true :=
  user_create_age_boundary emptyDB "S1234567" "Alice" "alice@uni.ie"
    (by decide) (by decide) (by decide)

/-- Spec-side reading of the student_id rule, written from the spec's
words for comparison with the source's pattern: the letter S followed
by exactly 7 digits. -/
def specStudentID (s : String) : Prop :=
  ∃ t : String, s = "S" ++ t ∧ t.length = 7 ∧ ∀ c ∈ t.data, c.isDigit = true

/-- C6: the source pattern for student_id accepts a string exactly when
it is the letter S followed by exactly 7 digits; in particular "S123"
is rejected and "S1234567" is accepted. -/
theorem studentID_pattern_correct :
    (∀ s : String, matchStudentID s = true ↔ specStudentID s) ∧
    matchStudentID "S123" = false ∧
    matchStudentID "S1234567" = true := by
  refine ⟨?_, by decide, by decide⟩
  intro s
  obtain ⟨l⟩ := s
  constructor
  · intro h
    cases l with
    | nil => exact absurd h (by simp [matchStudentID])
    | cons c cs =>
      simp only [matchStudentID, Bool.and_assoc, Bool.and_eq_true, beq_iff_eq,
        List.all_eq_true] at h
      obtain ⟨hc, hlen, hdig⟩ := h
      refine ⟨⟨cs⟩, ?_, ?_, fun x hx => hdig x hx⟩
      · apply String.ext
        rw [String.data_append]
        subst hc
        rfl
      · rw [String.length_mk]
        exact hlen
  · rintro ⟨t, hst, hlen, hdig⟩
    obtain ⟨ts⟩ := t
    have hdata : l = 'S' :: ts := by
      have h := congrArg String.data hst
      rw [String.data_append] at h
      exact h
    subst hdata
    rw [String.length_mk] at hlen
    simp only [matchStudentID, Bool.and_assoc, Bool.and_eq_true, beq_iff_eq,
      List.all_eq_true]
    exact ⟨trivial, hlen, fun x hx => hdig x hx⟩

/-- C4: deleting an existing user succeeds (204, no content), and
afterwards neither a user row with that id nor any project row owned
by that id remains in the store (ORM cascade "all, delete-orphan"). -/
theorem delete_user_cascade (db : DB) (uid : Nat)
    (h : db.users.any (fun u => u.id == uid) = true) :
    (delete_user db uid).2 = .ok () ∧
    (∀ u ∈ (delete_user db uid).1.users, u.id ≠ uid) ∧
    (∀ p ∈ (delete_user db uid).1.projects, p.owner_id ≠ uid) := by
  unfold delete_user
  rw [h]
  refine ⟨rfl, ?_, ?_⟩
  · intro u hu
    have := (List.mem_filter.mp hu).2
    simpa using this
  · intro p hp
    have := (List.mem_filter.mp hp).2
    simpa using this

/-- C4 witness: a store with one user owning one project; deleting the
user returns 204 and leaves no user with id 1 and no project owned by
id 1. -/
theorem delete_user_cascade_witness :
    (delete_user projUserDB 1).2 = .ok () ∧
    (∀ u ∈ (delete_user projUserDB 1).1.users, u.id ≠ 1) ∧
    (∀ p ∈ (delete_user projUserDB 1).1.projects, p.owner_id ≠ 1) :=
  delete_user_cascade projUserDB 1 (by decide)

/-- C9: for any store and any user id, the relationship fetch returns
exactly the projects owned by that id (sound and complete), with no
existence check: whenever every stored project's owner exists and the
id names no stored user, the result is the empty list — the handler
has no error outcome at all, so no 404 can arise. -/
theorem get_user_projects_no_existence_check (db : DB) (uid : Nat) :
    (∀ p ∈ get_user_projects db uid, p.owner_id = uid) ∧
    (∀ p ∈ db.projects, p.owner_id = uid → p ∈ get_user_projects db uid) ∧
    ((∀ p ∈ db.projects, ∃ u ∈ db.users, u.id = p.owner_id) →
      (∀ u ∈ db.users, u.id ≠ uid) →
      get_user_projects db uid = []) := by
  unfold get_user_projects
  refine ⟨?_, ?_, ?_⟩
  · intro p hp
    have := (List.mem_filter.mp hp).2
    simpa using this
  · intro p hp h
    exact List.mem_filter.mpr ⟨hp, by simp [h]⟩
  · intro hfk hnone
    rw [List.filter_eq_nil_iff]
    intro p hp
    simp only [beq_iff_eq]
    intro heq
    obtain ⟨u, hu, hid⟩ := hfk p hp
    exact hnone u hu (hid.trans heq)

/-- C9 witness: in the one-user store (user id 1, no projects), the
unknown id 99 yields the empty list via the third conjunct of the
theorem, its hypotheses discharged by evaluation. -/
theorem get_user_projects_no_existence_check_witness :
    get_user_projects oneUserDB 99 = [] :=
  (get_user_projects_no_existence_check oneUserDB 99).2.2
    (by decide) (by decide)

/-- C3: the claim says the nested project-create route takes the User
id from the request path.  The handler signature (main.py line 148)
declares users_id while the path template declares user_id, so FastAPI
binds users_id as a required query parameter and the path value is
never read: with no query parameter the request fails 422, and when
one is given, the query value rather than the path value is the id
that is checked and used.  The handler body itself does implement the
claimed logic (existence check with 404, owner taken from its users_id
argument, payload without owner_id), as the third conjunct records. -/
theorem nested_create_ignores_path_id :
    (post_user_project oneUserDB 1 [] ⟨"Thesis", none⟩).2
        = .error ⟨422, "field required: users_id"⟩ ∧
    (post_user_project oneUserDB 1 [("users_id", 2)] ⟨"Thesis", none⟩).2
        = .error ⟨404, "User not found"⟩ ∧
    (create_user_project oneUserDB 1 ⟨"Thesis", none⟩).2
        = .ok ⟨1, "Thesis", none, 1⟩ :=
  ⟨rfl, rfl, rfl⟩

/-- C7: for an existing project, PATCH with only the description
supplied changes the description and nothing else — the response row
and the stored row keep the old name (and owner) — while PUT, whose
payload requires name, overwrites every field (name, description,
owner_id) of the project from the payload. -/
theorem project_patch_vs_put (db : DB) (pid : Nat) (q : ProjectRow) (d : String)
    (hq : db.projects.find? (fun r => r.id == pid) = some q)
    (hd : validDesc d = true) :
    ((patch_project db pid ⟨none, some (some d)⟩).2
        = .ok { q with description := some d } ∧
     (patch_project db pid ⟨none, some (some d)⟩).1.projects.find?
        (fun r => r.id == pid) = some { q with description := some d }) ∧
    (∀ p : ProjectCreate, validateProjectCreate p = true →
      db.users.any (fun u => u.id == p.owner_id) = true →
      (update_project db pid p).2
        = .ok { q with name := p.name, description := p.description,
                       owner_id := p.owner_id } ∧
      (update_project db pid p).1.projects.find? (fun r => r.id == pid)
        = some { q with name := p.name, description := p.description,
                        owner_id := p.owner_id }) := by
  have hqid : (q.id == pid) = true := by simpa using List.find?_some hq
  have hvp : validateProjectUpdate ⟨none, some (some d)⟩ = true := by
    simp [validateProjectUpdate, hd]
  constructor
  · have hres : patch_project db pid ⟨none, some (some d)⟩
        = ({ db with
              projects := db.projects.map
                (fun r => if r.id == pid then { q with description := some d } else r) },
           Except.ok { q with description := some d }) := by
      unfold patch_project
      simp [hvp, hq]
    rw [hres]
    exact ⟨rfl, find_map_update _ _ q _ hqid hq⟩
  · intro p hv ho
    have hres : update_project db pid p
        = ({ db with
              projects := db.projects.map
                (fun r => if r.id == pid then
                  { q with name := p.name, description := p.description,
                           owner_id := p.owner_id } else r) },
           Except.ok { q with name := p.name, description := p.description,
                              owner_id := p.owner_id }) := by
      unfold update_project
      simp [hv, hq, ho]
    rw [hres]
    exact ⟨rfl, find_map_update _ _ q _ hqid hq⟩

/-- C7 witness: in the one-project store, PUT with a fresh name
overwrites the project's fields, via the theorem's second conjunct at
a concrete payload. -/
theorem project_patch_vs_put_witness :
    (update_project projUserDB 1 ⟨"Thesis2", none, 1⟩).2
        = .ok ⟨1, "Thesis2", none, 1⟩ :=
  ((project_patch_vs_put projUserDB 1 ⟨1, "Thesis", some "final year project", 1⟩
      "v2" (by decide) (by decide)).2 ⟨"Thesis2", none, 1⟩ (by decide) (by decide)).1

/-- C8: any course listing is ordered by primary key ascending (its id
sequence is pairwise nondecreasing); the route's defaults are limit 10
and offset 0; and after inserting exactly two courses into the empty
store, listing with limit 1 and offset 1 returns exactly the
second-inserted course, which got id 2. -/
theorem course_listing_order_limit_offset :
    (∀ (db : DB) (limit offset : Nat),
      List.Sorted (· ≤ ·) ((list_courses db limit offset).map (fun c => c.id))) ∧
    (∀ db : DB, list_courses_default db = list_courses db 10 0) ∧
    (∀ p1 p2 : CourseCreate, validateCourseCreate p1 = true →
      validateCourseCreate p2 = true → p1.code ≠ p2.code →
      list_courses (create_course (create_course emptyDB p1).1 p2).1 1 1
        = [⟨2, p2.code, p2.name, p2.credits⟩]) := by
  refine ⟨?_, fun db => rfl, ?_⟩
  · intro db limit offset
    have hs : List.Sorted (fun a b => a.id ≤ b.id)
        (db.courses.insertionSort (fun a b => a.id ≤ b.id)) :=
      List.sorted_insertionSort _ _
    have hs2 : List.Sorted (fun a b => a.id ≤ b.id) (list_courses db limit offset) :=
      List.Pairwise.sublist
        ((List.take_sublist _ _).trans (List.drop_sublist _ _)) hs
    exact List.Pairwise.map _ (fun a b h => h) hs2
  · intro p1 p2 h1 h2 hne
    have hcode : (p1.code == p2.code) = false := by
      simp [hne]
    unfold create_course list_courses emptyDB
    simp [h1, h2, hcode, commit_or_rollback, List.insertionSort, List.orderedInsert]

/-- C8 witness: two concrete course inserts into the empty store;
listing with limit 1 and offset 1 yields the second course (id 2). -/
theorem course_listing_order_limit_offset_witness :
    list_courses (create_course (create_course emptyDB
        ⟨"CS101", "Databases", 5⟩).1 ⟨"CS102", "Networks", 5⟩).1 1 1
      = [⟨2, "CS102", "Networks", 5⟩] :=
  course_listing_order_limit_offset.2.2 ⟨"CS101", "Databases", 5⟩
    ⟨"CS102", "Networks", 5⟩ (by decide) (by decide) (by decide)

/-- C10: the PATCH user schema accepts age 18 (AgeInt is Ge 18, a
non-strict bound) while the create schema requires age strictly above
18; patching an existing user to age 18 therefore succeeds and stores
a user of age 18, so partial update does not preserve the
creation-time invariant.  The last hypothesis only rules out a store
where another user already shares the target's unchanged email or
student_id. -/
theorem patch_user_accepts_age_18 (db : DB) (uid : Nat) (u : UserRow)
    (hu : db.users.find? (fun x => x.id == uid) = some u)
    (hnc : ∀ x ∈ db.users, x.id ≠ uid →
      x.email ≠ u.email ∧ x.student_id ≠ u.student_id) :
    validateUserUpdate ⟨none, none, none, some 18⟩ = true ∧
    userCreateAgeOK 18 = false ∧
    (patch_user db uid ⟨none, none, none, some 18⟩).2 = .ok { u with age := 18 } ∧
    (patch_user db uid ⟨none, none, none, some 18⟩).1.users.find?
        (fun x => x.id == uid) = some { u with age := 18 } := by
  have huid : (u.id == uid) = true := by simpa using List.find?_some hu
  have hany : db.users.any (fun x => x.id != uid
      && (x.email == u.email || x.student_id == u.student_id)) = false := by
    refine Bool.eq_false_iff.mpr (fun hcontra => ?_)
    obtain ⟨x, hx, hpx⟩ := List.any_eq_true.mp hcontra
    rw [Bool.and_eq_true] at hpx
    obtain ⟨hx1, hx2⟩ := hpx
    obtain ⟨he, hs⟩ := hnc x hx (by simpa using hx1)
    rw [Bool.or_eq_true] at hx2
    rcases hx2 with h | h
    · exact he (by simpa using h)
    · exact hs (by simpa using h)
  have hval : validateUserUpdate ⟨none, none, none, some 18⟩ = true := by decide
  have happ : applyUserUpdate u ⟨none, none, none, some 18⟩ = { u with age := 18 } := rfl
  have hres : patch_user db uid ⟨none, none, none, some 18⟩
      = ({ db with
            users := db.users.map
              (fun x => if x.id == uid then { u with age := 18 } else x) },
         Except.ok { u with age := 18 }) := by
    unfold patch_user
    simp [hval, hu, happ, hany]
  rw [hres]
  exact ⟨hval, by decide, rfl, find_map_update _ _ u _ huid hu⟩

/-- C10 witness: patching the one persisted user (created with age 21)
down to age 18 succeeds and returns the stored row with age 18. -/
theorem patch_user_accepts_age_18_witness :
    (patch_user oneUserDB 1 ⟨none, none, none, some 18⟩).2
      = .ok ⟨1, "Alice", "alice@uni.ie", 18, "S1234567"⟩ :=
  (patch_user_accepts_age_18 oneUserDB 1
    ⟨1, "Alice", "alice@uni.ie", 21, "S1234567"⟩
    (by decide) (by decide)).2.2.1

end Lab5
